import Mathlib

/-!
Verification development for the plugin ingestion-and-sandboxing pipeline of
`src/core/plugins/index.ts` (class `Plugins`).

The TypeScript code is shallowly embedded:
* JavaScript runtime values that the schema validator inspects are modelled by
  the inductive type `JSVal` (mirroring the `typeof`-style predicates
  `isUndefined` / `isString` / `isNumber` / `isFunction` used by the source);
* a candidate exported plugin class is the record `Candidate` of the static
  fields plus the three prototype members that `_isBookSource` probes;
* the validators `_isPlugin` / `_isBookSource` / `_isBookStore` become
  `Except String Unit` functions, each thrown string kept verbatim;
* the embedded uglify-js parser / minifier and the sandboxed interpreter are
  external collaborators and are therefore parameters (`JSEnv`), as are the
  filesystem and the persistence collaborator's success/failure behaviour;
* the `import` / `check` / `importPool` / `enable` / `disable` / `delete`
  orchestration becomes explicit state passing over `ImportState`
  (`pluginsPool` registry, persisted `pluginsJSCode` records, store cache);
* the `with(sandbox)` proxy handlers (`get` / `set`) are modelled over
  `SBValue`, with `Proxy`-wrapping an explicit constructor.
-/

/-- JavaScript value as discriminated by the source's type predicates. -/
inductive JSVal where
  | undef
  | vnull
  | str (s : String)
  | num (n : Int)
  | bool (b : Bool)
  | func
  | obj
deriving DecidableEq, Repr

def jsIsUndef : JSVal → Bool
  | .undef => true
  | _ => false

def jsIsString : JSVal → Bool
  | .str _ => true
  | _ => false

def jsIsNumber : JSVal → Bool
  | .num _ => true
  | _ => false

def jsIsFunction : JSVal → Bool
  | .func => true
  | _ => false

def jsAsStr : JSVal → String
  | .str s => s
  | _ => ""

def jsAsNum : JSVal → Int
  | .num n => n
  | _ => 0

/-- Candidate exported plugin value: the static fields read by `_isPlugin`
plus the prototype members probed by `_isBookSource`. -/
structure Candidate where
  ID : JSVal
  TYPE : JSVal
  GROUP : JSVal
  NAME : JSVal
  VERSION : JSVal
  VERSION_CODE : JSVal
  PLUGIN_FILE_URL : JSVal
  BASE_URL : JSVal
  search : JSVal
  getDetail : JSVal
  getTextContent : JSVal
deriving DecidableEq, Repr

/-- `PluginType.valueOf`: the enum holds `BOOK_SOURCE = 0` and
`BOOK_STORE = 1`; `valueOf` succeeds exactly on those numbers. -/
def pluginTypeKnown (n : Int) : Bool :=
  n == 0 || n == 1

/-- One character of the class `[A-Za-z0-9_\-]` from the ID regex. -/
def idCharOk (c : Char) : Bool :=
  c.isAlpha || c.isDigit || c == '_' || c == '-'

/-- The unanchored regex test `/[A-Za-z0-9_\-]/.test(s)`: true iff `s`
contains at least one character of the class. (JavaScript string operations
are modelled on the character list of the string.) -/
def idRegexTest (s : String) : Bool :=
  s.data.any idCharOk

/-- `String.prototype.trim` on the character list: strip leading and
trailing whitespace. -/
def trimCharList (l : List Char) : List Char :=
  ((l.dropWhile Char.isWhitespace).reverse.dropWhile Char.isWhitespace).reverse

/-- The check `s.trim() === s`. -/
def jsTrimEq (s : String) : Bool :=
  s.data == trimCharList s.data

/-- Truthiness of `s.trim()` (non-empty after trimming). -/
def jsTrimTruthy (s : String) : Bool :=
  !(trimCharList s.data).isEmpty

/-- `s.length` (code points; identical for the ASCII data validated here). -/
def jsLen (s : String) : Nat :=
  s.data.length

/-- Case-insensitive view of a string's characters. -/
def lowerList (s : String) : List Char :=
  s.data.map Char.toLower

/-- The regex test `/^https?:\/\/.*?\.js$/i.test(s)` (case-insensitive;
`.` does not match line terminators). -/
def isHttpUrlJs (s : String) : Bool :=
  if ("https://".data).isPrefixOf (lowerList s) then
    (".js".data).isSuffixOf ((lowerList s).drop 8)
      && (((lowerList s).drop 8).take (((lowerList s).drop 8).length - 3)).all
        (fun c => !(c == '\n') && !(c == '\r'))
  else if ("http://".data).isPrefixOf (lowerList s) then
    (".js".data).isSuffixOf ((lowerList s).drop 7)
      && (((lowerList s).drop 7).take (((lowerList s).drop 7).length - 3)).all
        (fun c => !(c == '\n') && !(c == '\r'))
  else false

/-- The regex test `/^https?:\/\/.*?/i.test(s)`: the lazy tail matches the
empty string, so this is just a case-insensitive scheme-prefix test. -/
def isHttpUrl (s : String) : Bool :=
  ("https://".data).isPrefixOf (lowerList s) || ("http://".data).isPrefixOf (lowerList s)

/-- ID block of `_isPlugin` (presence, type, format regex + trim, length). -/
def checkID (p : Candidate) : Except String Unit :=
  if jsIsUndef p.ID then .error "Static property [ID] not found"
  else if ¬ jsIsString p.ID then .error "Static property [ID] is not of string type"
  else if idRegexTest (jsAsStr p.ID) = false ∨ jsTrimEq (jsAsStr p.ID) = false then
    .error "The ID format is not standard"
  else if jsLen (jsAsStr p.ID) < 16 ∨ jsLen (jsAsStr p.ID) > 32 then
    .error ("Static property [ID] Length:" ++ toString (jsLen (jsAsStr p.ID))
      ++ ", ID range in length [16,32]")
  else .ok ()

/-- TYPE block of `_isPlugin` (presence, number type, `PluginType.valueOf`). -/
def checkTYPE (p : Candidate) : Except String Unit :=
  if jsIsUndef p.TYPE then .error "Static property [TYPE] not found"
  else if ¬ jsIsNumber p.TYPE then .error "Static property [TYPE] is not of number type"
  else if ¬ pluginTypeKnown (jsAsNum p.TYPE) = true then
    .error "Static property [TYPE] is unknown plugin type"
  else .ok ()

/-- GROUP block of `_isPlugin` (note: the thrown message says `[2,15]` while
the enforced range is `[1,15]`, kept verbatim from the source). -/
def checkGROUP (p : Candidate) : Except String Unit :=
  if jsIsUndef p.GROUP then .error "Static property [GROUP] not found"
  else if ¬ jsIsString p.GROUP then .error "Static property [GROUP] is not of string type"
  else if jsTrimEq (jsAsStr p.GROUP) = false then .error "The GROUP format is not standard"
  else if jsLen (jsAsStr p.GROUP) < 1 ∨ jsLen (jsAsStr p.GROUP) > 15 then
    .error ("Static property [GROUP] Length:" ++ toString (jsLen (jsAsStr p.GROUP))
      ++ ", GROUP range in length [2,15]")
  else .ok ()

/-- NAME block of `_isPlugin`. -/
def checkNAME (p : Candidate) : Except String Unit :=
  if jsIsUndef p.NAME then .error "Static property [NAME] not found"
  else if ¬ jsIsString p.NAME then .error "Static property [NAME] is not of string type"
  else if jsTrimEq (jsAsStr p.NAME) = false then .error "The NAME format is not standard"
  else if jsLen (jsAsStr p.NAME) < 1 ∨ jsLen (jsAsStr p.NAME) > 15 then
    .error ("Static property [NAME] Length:" ++ toString (jsLen (jsAsStr p.NAME))
      ++ ", NAME range in length [2,15]")
  else .ok ()

/-- VERSION block of `_isPlugin` (the `< 0` bound is kept verbatim). -/
def checkVERSION (p : Candidate) : Except String Unit :=
  if jsIsUndef p.VERSION then .error "Static property [VERSION] not found"
  else if ¬ jsIsString p.VERSION then .error "Static property [VERSION] is not of string type"
  else if jsTrimEq (jsAsStr p.VERSION) = false then
    .error "The VERSION format is not standard"
  else if jsLen (jsAsStr p.VERSION) < 0 ∨ jsLen (jsAsStr p.VERSION) > 8 then
    .error ("Static property [VERSION] Length:" ++ toString (jsLen (jsAsStr p.VERSION))
      ++ ", VERSION range in length [1,8]")
  else .ok ()

/-- VERSION_CODE block of `_isPlugin`. -/
def checkVERSION_CODE (p : Candidate) : Except String Unit :=
  if jsIsUndef p.VERSION_CODE then .error "Static property [VERSION_CODE] not found"
  else if ¬ jsIsNumber p.VERSION_CODE then
    .error "Static property [VERSION_CODE] is not of number type"
  else .ok ()

/-- PLUGIN_FILE_URL block of `_isPlugin` (format only checked when the
trimmed value is non-empty). -/
def checkPLUGIN_FILE_URL (p : Candidate) : Except String Unit :=
  if jsIsUndef p.PLUGIN_FILE_URL then .error "Static property [PLUGIN_FILE_URL] not found"
  else if ¬ jsIsString p.PLUGIN_FILE_URL then
    .error "Static property [PLUGIN_FILE_URL] is not of string type"
  else if jsTrimTruthy (jsAsStr p.PLUGIN_FILE_URL) = true
      ∧ isHttpUrlJs (jsAsStr p.PLUGIN_FILE_URL) = false then
    .error "The [PLUGIN_FILE_URL] format is not standard"
  else .ok ()

/-- BASE_URL block of `_isPlugin`. -/
def checkBASE_URL (p : Candidate) : Except String Unit :=
  if jsIsUndef p.BASE_URL then .error "Static property [BASE_URL] not found"
  else if ¬ jsIsString p.BASE_URL then .error "Static property [BASE_URL] is not of string type"
  else if jsTrimTruthy (jsAsStr p.BASE_URL) = false then
    .error "Static property [BASE_URL] is empty"
  else if isHttpUrl (jsAsStr p.BASE_URL) = false then
    .error "The [BASE_URL] format is not standard"
  else .ok ()

/-- `_isBookSource`: the three capability methods on the prototype. -/
def checkBookSource (p : Candidate) : Except String Unit :=
  if jsIsUndef p.search then .error "Function [search] not found"
  else if ¬ jsIsFunction p.search then .error "Property [search] is not of function type"
  else if jsIsUndef p.getDetail then .error "Function [getDetail] not found"
  else if ¬ jsIsFunction p.getDetail then .error "Property [getDetail] is not of function type"
  else if jsIsUndef p.getTextContent then .error "Function [getTextContent] not found"
  else if ¬ jsIsFunction p.getTextContent then
    .error "Property [getTextContent] is not of function type"
  else .ok ()

/-- `_isBookStore`: unconditionally `throw 'unknown'`. -/
def checkBookStore (_ : Candidate) : Except String Unit :=
  .error "unknown"

/-- The trailing `switch (plugin.TYPE)`: `BOOK_STORE` (1) dispatches to
`_isBookStore`, `BOOK_SOURCE` and `default` to `_isBookSource`. -/
def checkDispatch (p : Candidate) : Except String Unit :=
  if jsAsNum p.TYPE = 1 then checkBookStore p else checkBookSource p

/-- `Plugins._isPlugin`, as the sequence of its throw-on-failure blocks. -/
def isPluginE (p : Candidate) : Except String Unit := do
  checkID p
  checkTYPE p
  checkGROUP p
  checkNAME p
  checkVERSION p
  checkVERSION_CODE p
  checkPLUGIN_FILE_URL p
  checkBASE_URL p
  checkDispatch p

/-- `Plugins.isPlugin`: the predicate form that swallows the failure. -/
def isPluginB (p : Candidate) : Bool :=
  match isPluginE p with
  | .ok _ => true
  | .error _ => false

def exOk {α : Type} : Except String α → Bool
  | .ok _ => true
  | .error _ => false

/-! ## Sandboxed executor: the `with(sandbox)` proxy handlers -/

/-- Value as seen through the sandbox proxy. `window` is the real ambient
global scope; `proxied fs` is `new Proxy(o, handler)` around a plain object
with field list `fs`; `vnull` is `null` (which has `typeof 'object'`);
`func tag fs` is a function (`typeof 'function'`) with its own property
list `fs` — function-valued builtins (`String`, `Object.prototype.toString`,
`Object`, `Function`, ...) are functions with walkable properties of their
own. -/
inductive SBValue where
  | prim (tag : String)
  | vnull
  | func (tag : String) (fields : List (String × SBValue))
  | window
  | obj (fields : List (String × SBValue))
  | proxied (fields : List (String × SBValue))

def getDeniedMsg (p : String) : String :=
  "Permission denied to access property or function [" ++ p ++ "]"

def setDeniedMsg (p : String) : String :=
  "Permission denied to set property or function [" ++ p ++ "]"

/-- The `Object` constructor, reached from any plain object via the
inherited `constructor` member. -/
def objectCtor : SBValue :=
  .func "Object" []

/-- Members every plain object inherits from `Object.prototype`. The proxy
targets of `runScript` are object literals, so JavaScript's `in` operator —
used by the `get` trap's `p in target` — finds these names on every
container and on every nested plain object. All of them are functions. -/
def objectProtoFields : List (String × SBValue) :=
  [("constructor", objectCtor),
   ("hasOwnProperty", .func "Object.prototype.hasOwnProperty" []),
   ("isPrototypeOf", .func "Object.prototype.isPrototypeOf" []),
   ("propertyIsEnumerable", .func "Object.prototype.propertyIsEnumerable" []),
   ("toLocaleString", .func "Object.prototype.toLocaleString" []),
   ("toString", .func "Object.prototype.toString" []),
   ("valueOf", .func "Object.prototype.valueOf" [])]

/-- Members every function inherits from `Function.prototype`. The real
structure is cyclic (`Function.constructor === Function`); here the cycle
is represented by lookup: the `constructor` of any function value resolves
through this list to the `Function` constructor again. -/
def functionProtoFields : List (String × SBValue) :=
  [("constructor", .func "Function" []),
   ("call", .func "Function.prototype.call" []),
   ("apply", .func "Function.prototype.apply" []),
   ("bind", .func "Function.prototype.bind" []),
   ("toString", .func "Function.prototype.toString" [])]

/-- Property resolution on a plain-object proxy target: own properties
first, then the prototype chain (`Object.prototype`). This models both the
`p in target` presence test and the `Reflect.get` that follows it. -/
def jsGet (own : List (String × SBValue)) (p : String) : Option SBValue :=
  match own.lookup p with
  | some v => some v
  | none => objectProtoFields.lookup p

/-- The `get` trap of the proxy handler: a property found on the target —
own or inherited, because `p in target` walks the prototype chain — and not
`window` is returned, re-wrapped in the same handler when
`typeof val === 'object'` (`new Proxy(null, handler)` raises a TypeError)
but returned RAW when it is a function (`typeof 'function'` fails the
object test on line 552); a name found nowhere throws the permission-denied
error naming the identifier. -/
def handlerGet (fields : List (String × SBValue)) (p : String) : Except String SBValue :=
  match jsGet fields p with
  | some v =>
    match v with
    | .window => .error (getDeniedMsg p)
    | .vnull => .error "TypeError: Cannot create proxy with a non-object as target"
    | .obj g => .ok (.proxied g)
    | .proxied g => .ok (.proxied g)
    | v => .ok v
  | none => .error (getDeniedMsg p)

/-- Property read on a raw (unproxied) value the script got hold of:
ordinary JavaScript member access with no interception — own properties,
then the prototype chain; a missing member is `undefined`, never an error. -/
def rawRead : SBValue → String → Option SBValue
  | .obj fields, p => jsGet fields p
  | .func _ fields, p =>
    (match fields.lookup p with
     | some v => some v
     | none => functionProtoFields.lookup p)
  | _, _ => none

/-- A property read against a value the script obtained from the sandbox:
reading through a proxied object goes through `handlerGet` again; reading on
anything else (in particular a raw function leaked by the trap) is plain
uninterceptable member access. -/
def sbRead (v : SBValue) (p : String) : Except String SBValue :=
  match v with
  | .proxied fields => handlerGet fields p
  | v =>
    match rawRead v p with
    | some w => .ok w
    | none => .ok (.prim "undefined")

/-- Whether a read result handed out a raw (unproxied) object. -/
def isRawObj : Except String SBValue → Bool
  | .ok (.obj _) => true
  | _ => false

/-- Whether a read result handed out a raw (unproxied) function. -/
def isRawFunc : Except String SBValue → Bool
  | .ok (.func _ _) => true
  | _ => false

/-- The `set` trap of the proxy handler: only `target === sandbox.plugin`
together with `p === 'exports'` is allowed, and stores the value via
`Reflect.set`; every other write throws naming the target property. -/
def handlerSet (targetIsPluginObj : Bool) (p : String) (v : SBValue) : Except String SBValue :=
  if targetIsPluginObj = true ∧ p = "exports" then .ok v
  else .error (setDeniedMsg p)

/-- The `plugin.type` member (the `PluginType` enum object). -/
def pluginTypeObjFields : List (String × SBValue) :=
  [("BOOK_SOURCE", .prim "number"), ("BOOK_STORE", .prim "number"),
   ("valueOf", .func "valueOf" [])]

def consoleFields : List (String × SBValue) :=
  [("log", .func "log" []), ("info", .func "info" []), ("error", .func "error" []),
   ("warn", .func "warn" []), ("debug", .func "debug" [])]

def timerFields : List (String × SBValue) :=
  [("timeout", .func "timeout" []), ("interval", .func "interval" [])]

def mathFields : List (String × SBValue) :=
  [("PI", .prim "number"), ("floor", .func "floor" []), ("random", .func "random" [])]

def jsonFields : List (String × SBValue) :=
  [("parse", .func "parse" []), ("stringify", .func "stringify" [])]

/-- The allow-list container built by `runScript` (the `sandbox` object
literal of lines 513-539), with the current `plugin.exports` slot value.
Own names are exactly the listed capabilities; everything else a script
names resolves — if at all — through the prototype chain. -/
def sandboxFields (exportsVal : SBValue) : List (String × SBValue) :=
  [("plugin", .obj [("exports", exportsVal), ("type", .obj pluginTypeObjFields)]),
   ("console", .obj consoleFields),
   ("String", .func "String" []), ("Number", .func "Number" []),
   ("Boolean", .func "Boolean" []), ("Date", .func "Date" []),
   ("Math", .obj mathFields), ("RegExp", .func "RegExp" []),
   ("JSON", .obj jsonFields), ("Promise", .func "Promise" []),
   ("isNaN", .func "isNaN" []), ("isNull", .func "isNull" []),
   ("isUndefined", .func "isUndefined" []), ("isString", .func "isString" []),
   ("isNumber", .func "isNumber" []), ("isArray", .func "isArray" []),
   ("isDate", .func "isDate" []), ("isFunction", .func "isFunction" []),
   ("Timer", .obj timerFields), ("URLSearchParams", .func "URLSearchParams" [])]

/-! ## Import pipeline -/

/-- One node of the uglify-js tree walk: `node.name` / `node.start.value`
when they are strings, and `node.start.line`. -/
structure ASTNode where
  name : Option String
  startValue : Option String
  line : Nat
deriving DecidableEq, Repr

/-- The walker's per-node test from `Plugins.check`. -/
def isImportNode (n : ASTNode) : Bool :=
  n.name == some "import" || n.startValue == some "import"

/-- The tree walk throws at the first node matching `isImportNode`. -/
def findImportNode (nodes : List ASTNode) : Option ASTNode :=
  nodes.find? isImportNode

/-- External embedded-interpreter collaborators: uglify-js `parse` (error =
thrown parse failure), the minify/mangle/print pipeline, running a script in
the sandbox and reading `plugin.exports` (`none` = nothing exported), and
`new PluginClass(...)` construction (error = the constructor threw). -/
structure JSEnv where
  parse : String → Except String (List ASTNode)
  minify : String → String
  run : String → Except String (Option Candidate)
  construct : Candidate → Except String Unit

/-- `PluginImportOptions` with JavaScript optional fields. -/
structure ImportOptions where
  force : Option Bool := none
  minify : Option Bool := none
  debug : Option Bool := none
  enable : Option Bool := none
deriving DecidableEq, Repr

/-- Truthiness of `options?.f` for an optional boolean field. -/
def optProp (o : Option ImportOptions) (f : ImportOptions → Option Bool) : Bool :=
  (o.bind f).getD false

/-- The guard `!options || options.minify` of `Plugins.check`. -/
def doMinify (o : Option ImportOptions) : Bool :=
  match o with
  | none => true
  | some opts => opts.minify.getD false

/-- Static plugin descriptor as stored in `props`. -/
structure PluginProps where
  ID : String
  TYPE : Int
  GROUP : String
  NAME : String
  VERSION : String
  VERSION_CODE : Int
  PLUGIN_FILE_URL : String
  BASE_URL : String
deriving DecidableEq, Repr

/-- Registry entry of `pluginsPool`. `inst` models the `instance` field
(a Lean keyword); the live instance itself is kept abstract — only its
presence (`instance !== null`) matters to the registry. -/
structure PoolEntry where
  enable : Bool
  props : PluginProps
  inst : Option Unit
deriving DecidableEq, Repr

/-- Persisted record of the `pluginsJSCode` collaborator. -/
structure DBRecord where
  id : String
  jscode : String
  enable : Bool
deriving DecidableEq, Repr

/-- State touched by the pipeline: the in-memory registry, the persisted
records, and the store-manager cache (ids with a created store). -/
structure ImportState where
  pool : List (String × PoolEntry)
  db : List DBRecord
  storeCache : List String
deriving DecidableEq, Repr

/-- `pluginsPool.get`. -/
def poolGet (pool : List (String × PoolEntry)) (id : String) : Option PoolEntry :=
  pool.lookup id

/-- `pluginsPool.has`. -/
def poolHas (pool : List (String × PoolEntry)) (id : String) : Bool :=
  (pool.lookup id).isSome

/-- `pluginsPool.set`: keyed overwrite. -/
def poolSet (id : String) (e : PoolEntry) (pool : List (String × PoolEntry)) :
    List (String × PoolEntry) :=
  (id, e) :: pool.filter (fun x => !(x.1 == id))

/-- `pluginsPool.delete`. -/
def poolRemove (id : String) (pool : List (String × PoolEntry)) :
    List (String × PoolEntry) :=
  pool.filter (fun x => !(x.1 == id))

/-- `pluginsJSCode.getById`. -/
def dbGet (db : List DBRecord) (id : String) : Option DBRecord :=
  db.find? (fun r => r.id == id)

/-- `pluginsJSCode.put`: keyed upsert. -/
def dbPut (r : DBRecord) (db : List DBRecord) : List DBRecord :=
  r :: db.filter (fun x => !(x.id == r.id))

/-- `pluginsJSCode.remove`. -/
def dbRemove (id : String) (db : List DBRecord) : List DBRecord :=
  db.filter (fun x => !(x.id == id))

/-- `getPluginStore`: create-if-absent, cache for the process lifetime. -/
def storeEnsure (id : String) (cache : List String) : List String :=
  if cache.contains id then cache else id :: cache

/-- Descriptor extraction once `_isPlugin` has passed. -/
def extractProps (p : Candidate) : PluginProps :=
  { ID := jsAsStr p.ID, TYPE := jsAsNum p.TYPE, GROUP := jsAsStr p.GROUP,
    NAME := jsAsStr p.NAME, VERSION := jsAsStr p.VERSION,
    VERSION_CODE := jsAsNum p.VERSION_CODE,
    PLUGIN_FILE_URL := jsAsStr p.PLUGIN_FILE_URL, BASE_URL := jsAsStr p.BASE_URL }

/-- The declared ID of a schema-accepted candidate. -/
def candId (p : Candidate) : String :=
  jsAsStr p.ID

/-- Source resolution at the head of `Plugins.import`: read the file when a
path is given (error when it does not exist), else use the given code,
else fail. -/
def resolveCode (fs : String → Option String) :
    Option String → Option String → Except String String
  | some path, _ =>
    match fs path with
    | none => .error ("Plugin file \"" ++ path ++ "\" not found")
    | some content => .ok content
  | none, some code => .ok code
  | none, none => .error "Plugin jscode not found"

/-- Static code validation pass of `Plugins.check`: parse, walk for a
module-import construct (error names the node's line), then minify. -/
def staticPass (env : JSEnv) (jscode : String) : Except String String :=
  match env.parse jscode with
  | .error e => .error e
  | .ok nodes =>
    match findImportNode nodes with
    | some n => .error ("Cannot import modules, in the " ++ toString n.line ++ " line")
    | none => .ok (env.minify jscode)

/-- `Plugins.check`: optional static pass, sandboxed execution + export
extraction, schema validation, duplicate-id check (skipped under `force`).
Returns the accepted candidate and the (possibly rewritten) code. -/
def check (env : JSEnv) (jscode : String) (options : Option ImportOptions)
    (pool : List (String × PoolEntry)) : Except String (Candidate × String) :=
  match (if doMinify options then staticPass env jscode else .ok jscode) with
  | .error e => .error e
  | .ok code =>
    match env.run code with
    | .error e => .error e
    | .ok none => .error "Cannot find plugin"
    | .ok (some plugin) =>
      match isPluginE plugin with
      | .error e => .error e
      | .ok _ =>
        if optProp options ImportOptions.force = false ∧ poolHas pool (candId plugin) then
          .error ("Plugin exists ID:" ++ candId plugin)
        else .ok (plugin, code)

/-- `getPluginStore` effect on the store-manager cache. -/
def storePhase (id : String) (st : ImportState) : ImportState :=
  { st with storeCache := storeEnsure id st.storeCache }

/-- Step 7 of `Plugins.import`: unless `options?.debug`, persist
`{id, jscode: code, enable: !!options?.enable}`. -/
def persistPhase (options : Option ImportOptions) (props : PluginProps) (code : String)
    (st : ImportState) : ImportState :=
  if optProp options ImportOptions.debug then st
  else { st with db :=
    (dbPut { id := props.ID, jscode := code, enable := optProp options ImportOptions.enable }
      st.db) }

/-- Step 8 of `Plugins.import`: `pluginsPool.set` with the instance present
exactly when `options?.enable` is truthy. -/
def registerPhase (options : Option ImportOptions) (props : PluginProps)
    (st : ImportState) : ImportState :=
  { st with pool :=
    (poolSet props.ID
      { enable := optProp options ImportOptions.enable, props := props,
        inst := if optProp options ImportOptions.enable then some () else none }
      st.pool) }

/-- `Plugins.import`. `pOk` is the persistence collaborator's behaviour for
`put` during this call (`false` = the write rejects). On success the
constructed instance is returned (represented by its descriptor). -/
def importFn (env : JSEnv) (pOk : Bool) (fs : String → Option String)
    (pathOpt codeOpt : Option String) (options : Option ImportOptions)
    (st : ImportState) : Except String PluginProps × ImportState :=
  match resolveCode fs pathOpt codeOpt with
  | .error e => (.error e, st)
  | .ok jscode =>
    match check env jscode options st.pool with
    | .error e => (.error e, st)
    | .ok pc =>
      match env.construct pc.1 with
      | .error e => (.error e, storePhase (extractProps pc.1).ID st)
      | .ok _ =>
        if optProp options ImportOptions.debug = false ∧ pOk = false then
          (.error "failed to persist plugin record", storePhase (extractProps pc.1).ID st)
        else
          (.ok (extractProps pc.1),
           registerPhase options (extractProps pc.1)
             (persistPhase options (extractProps pc.1) pc.2
               (storePhase (extractProps pc.1).ID st)))

/-- `Plugins.disable`: flip the persisted flag (put first), then clear the
in-memory instance. Missing record or entry fails; a failed put leaves the
registry untouched. -/
def disableFn (pOk : Bool) (id : String) (st : ImportState) :
    Except String Unit × ImportState :=
  match dbGet st.db id, poolGet st.pool id with
  | some rec, some p =>
    if pOk then
      (.ok (), { st with
        db := dbPut { rec with enable := false } st.db,
        pool := poolSet id { enable := false, props := p.props, inst := none } st.pool })
    else (.error "failed to persist plugin record", st)
  | _, _ => (.error ("Cannot find plugin, id:" ++ id), st)

/-- Options used by `Plugins.enable` for its re-import. -/
def enableOpts : ImportOptions :=
  { force := some true, minify := some true, enable := some true }

/-- `Plugins.enable`: flip the persisted flag, then re-import the persisted
source with `force: true, minify: true, enable: true`. -/
def enableFn (env : JSEnv) (pOk : Bool) (fs : String → Option String) (id : String)
    (st : ImportState) : Except String Unit × ImportState :=
  match dbGet st.db id, poolGet st.pool id with
  | some rec, some _ =>
    if pOk then
      (Except.map (fun _ => ())
        (importFn env pOk fs none (some rec.jscode) (some enableOpts)
          { st with db := dbPut { rec with enable := true } st.db }).1,
       (importFn env pOk fs none (some rec.jscode) (some enableOpts)
          { st with db := dbPut { rec with enable := true } st.db }).2)
    else (.error "failed to persist plugin record", st)
  | _, _ => (.error ("Cannot find plugin, id:" ++ id), st)

/-- `Plugins.delete`: remove the persisted record and the registry entry. -/
def deleteFn (id : String) (st : ImportState) : ImportState :=
  { st with db := dbRemove id st.db, pool := poolRemove id st.pool }

/-- `PluginFilter` with JavaScript optional fields. -/
structure PluginFilterM where
  enable : Option Bool := none
  group : Option String := none
deriving DecidableEq, Repr

/-- `Plugins.getPluginsByType`: default filter `{enable: true, group: ''}`,
then filter by type/group, by enable-state, and by a non-null instance. -/
def getPluginsByType (pool : List (String × PoolEntry)) (type : Int)
    (filter : Option PluginFilterM) : List PluginProps :=
  ((((pool.map Prod.snd).filter (fun e =>
      if ¬ e.props.TYPE = type then false
      else if (filter.bind PluginFilterM.group).getD "" ≠ ""
          ∧ (filter.bind PluginFilterM.group).getD "" ≠ e.props.GROUP then false
      else true)).filter (fun e =>
        e.enable == (filter.bind PluginFilterM.enable).getD true)).filter (fun e =>
          e.inst.isSome)).map PoolEntry.props

/-- Options `Plugins.importPool` passes for each persisted record. -/
def poolOpts (enable : Bool) : ImportOptions :=
  { force := some true, minify := some false, enable := some enable }

/-- One entry of the load stats: success marker or failure message. -/
structure LoadStat where
  id : String
  error : Option String
deriving DecidableEq, Repr

/-- One record of the bulk-load loop: import with the persisted enable flag
and `force: true, minify: false`; on failure record the message and remove
the persisted record (quarantine). -/
def poolStep (env : JSEnv) (pOk : Bool) (fs : String → Option String)
    (r : DBRecord) (st : ImportState) : LoadStat × ImportState :=
  match importFn env pOk fs none (some r.jscode) (some (poolOpts r.enable)) st with
  | (.ok _, st1) => (⟨r.id, none⟩, st1)
  | (.error e, st1) => (⟨r.id, some e⟩, { st1 with db := dbRemove r.id st1.db })

/-- The bulk-load loop over a snapshot of the persisted records. Chunks are
awaited in full before the next starts and scripts never run interleaved
(§5), so the per-record outcomes are those of sequential processing. -/
def runPool (env : JSEnv) (pOk : Bool) (fs : String → Option String) :
    List DBRecord → ImportState → List LoadStat × ImportState
  | [], st => ([], st)
  | r :: rs, st =>
    ((poolStep env pOk fs r st).1 ::
       (runPool env pOk fs rs (poolStep env pOk fs r st).2).1,
     (runPool env pOk fs rs (poolStep env pOk fs r st).2).2)

/-- `Plugins.importPool`: replay all persisted records. -/
def importPool (env : JSEnv) (pOk : Bool) (fs : String → Option String)
    (st : ImportState) : List LoadStat × ImportState :=
  runPool env pOk fs st.db st

/-- Registry invariant of §3: a disabled entry has no instance, and an
instance is present only for an enabled entry. -/
def PoolInv (pool : List (String × PoolEntry)) : Prop :=
  ∀ x ∈ pool, (x.2.enable = false → x.2.inst = none)
    ∧ (x.2.inst.isSome = true → x.2.enable = true)

/-! ## Concrete fixtures -/

/-- A fully valid candidate: 16-char ID, `TYPE = BOOK_SOURCE`, all three
capability methods callable. -/
def goodCand : Candidate :=
  { ID := .str "abcdefgh12345678", TYPE := .num 0, GROUP := .str "news",
    NAME := .str "Demo", VERSION := .str "1.0", VERSION_CODE := .num 1,
    PLUGIN_FILE_URL := .str "", BASE_URL := .str "http://example.com",
    search := .func, getDetail := .func, getTextContent := .func }

/-- Valid candidate with a 32-character ID. -/
def good32Cand : Candidate :=
  { goodCand with ID := .str "abcdefghijklmnop0123456789ABCDEF" }

/-- Candidate whose 16-char ID contains `!`, a character outside
`[A-Za-z0-9_-]`, with every other field valid. -/
def badCharCand : Candidate :=
  { goodCand with ID := .str "abcdefgh1234567!" }

/-- Candidate with an empty GROUP (rejected by the GROUP length check). -/
def badGroupCand : Candidate :=
  { goodCand with ID := .str "bbbbbbbb12345678", GROUP := .str "" }

/-- Filesystem with no files. -/
def emptyFs : String → Option String := fun _ => none

/-- Interpreter environment: scripts parse to an empty tree, survive
minification unchanged, export `goodCand`, and construct successfully. -/
def goodEnv : JSEnv :=
  { parse := fun _ => .ok [], minify := fun s => s,
    run := fun _ => .ok (some goodCand), construct := fun _ => .ok () }

/-- An AST node representing a module-import construct on line 3. -/
def importASTNode : ASTNode :=
  { name := some "import", startValue := some "import", line := 3 }

/-- Environment whose scripts parse to a tree containing an import node but
still execute to a valid export (reachable when the static pass is off). -/
def importyEnv : JSEnv :=
  { goodEnv with parse := fun _ => .ok [importASTNode] }

/-- Environment for the bulk-load fixtures: the script text selects the
exported candidate. -/
def mixedEnv : JSEnv :=
  { goodEnv with run := fun code =>
      if code == "good" then .ok (some goodCand) else .ok (some badGroupCand) }

def emptyState : ImportState := { pool := [], db := [], storeCache := [] }

/-! ## Helper lemmas -/

/-- Sequencing after a failed check fails with the same message. -/
theorem isPluginE_err_of_checkID (p : Candidate) (m : String)
    (h : checkID p = .error m) : isPluginE p = .error m := by
  simp only [isPluginE, h]
  rfl

/-- A `Unit` sequence whose tail always fails is not ok. -/
theorem exOk_bind_false (x : Except String Unit) (f : Unit → Except String Unit)
    (h : exOk (f ()) = false) : exOk (x >>= f) = false := by
  cases x with
  | error e => rfl
  | ok u => cases u; exact h

/-- ID format failure (missing regex hit or untrimmed) in `checkID`. -/
theorem checkID_format_err (p : Candidate) (s : String) (hc : p.ID = .str s)
    (h : idRegexTest s = false ∨ jsTrimEq s = false) :
    checkID p = .error "The ID format is not standard" := by
  simp only [checkID, hc, jsIsUndef, jsIsString, jsAsStr]
  rw [if_neg (by simp), if_neg (by simp), if_pos h]

/-- ID length failure in `checkID`. -/
theorem checkID_length_err (p : Candidate) (s : String) (hc : p.ID = .str s)
    (h1 : idRegexTest s = true) (h2 : jsTrimEq s = true)
    (h3 : jsLen s < 16 ∨ jsLen s > 32) :
    checkID p = .error ("Static property [ID] Length:" ++ toString (jsLen s)
      ++ ", ID range in length [16,32]") := by
  simp only [checkID, hc, jsIsUndef, jsIsString, jsAsStr]
  rw [if_neg (by simp), if_neg (by simp), if_neg (by simp [h1, h2]), if_pos h3]

/-! ## Claim theorems: sandbox interception -/

/-- C1 counterexample: the presence test `p in target` walks the prototype
chain, so the name `toString` — absent from the allow-list container — is
not denied but served as the raw `Object.prototype.toString` function, and
`constructor` yields the raw `Object` constructor whose own `constructor`
is walkable, without interception, to the `Function` constructor: the
restriction is bypassed exactly by walking into prototypes and
constructors. -/
theorem sandbox_prototype_read_counterexample :
    ((sandboxFields SBValue.vnull).lookup "toString" = none)
  ∧ handlerGet (sandboxFields SBValue.vnull) "toString"
      = .ok (.func "Object.prototype.toString" [])
  ∧ ((sandboxFields SBValue.vnull).lookup "constructor" = none)
  ∧ handlerGet (sandboxFields SBValue.vnull) "constructor" = .ok objectCtor
  ∧ isRawFunc (handlerGet (sandboxFields SBValue.vnull) "constructor") = true
  ∧ rawRead objectCtor "constructor" = some (.func "Function" [])
  ∧ rawRead (.func "Function" []) "constructor" = some (.func "Function" []) :=
  ⟨rfl, rfl, rfl, rfl, rfl, rfl, rfl⟩

/-- C1 (amended): a read of a name that is neither an own property of the
container nor inherited through its prototype chain raises the
permission-denied error naming the identifier; a found name holding an
object (other than `window`) comes back wrapped in the identical handler,
reads through a wrapped object go through the same handler again, and no
read ever yields an unwrapped object. BUT names inherited from
`Object.prototype` are served rather than denied, any function-typed value
is returned raw and unproxied, and reads on such a raw function are never
intercepted — so the restriction does not extend to what is reachable
through prototypes and constructors. -/
theorem sandbox_get_interception_amended :
    (∀ (fields : List (String × SBValue)) (p : String),
        jsGet fields p = none → handlerGet fields p = .error (getDeniedMsg p))
  ∧ (∀ (fields : List (String × SBValue)) (p : String) (g : List (String × SBValue)),
        jsGet fields p = some (.obj g) → handlerGet fields p = .ok (.proxied g))
  ∧ (∀ (fields g : List (String × SBValue)) (p : String),
        handlerGet fields p = .ok (.proxied g) →
        ∀ q, sbRead (.proxied g) q = handlerGet g q)
  ∧ (∀ (fields : List (String × SBValue)) (p : String),
        isRawObj (handlerGet fields p) = false)
  ∧ (∀ (fields : List (String × SBValue)) (p t : String)
        (g : List (String × SBValue)),
        jsGet fields p = some (.func t g) → handlerGet fields p = .ok (.func t g))
  ∧ (∀ (t : String) (g : List (String × SBValue)) (q : String),
        exOk (sbRead (.func t g) q) = true) := by
  refine ⟨?_, ?_, ?_, ?_, ?_, ?_⟩
  · intro fields p h
    simp [handlerGet, h]
  · intro fields p g h
    simp [handlerGet, h]
  · intro fields g p _ q
    rfl
  · intro fields p
    unfold handlerGet
    cases h : jsGet fields p with
    | none => rfl
    | some v => cases v <;> rfl
  · intro fields p t g h
    simp [handlerGet, h]
  · intro t g q
    unfold sbRead
    cases h : rawRead (.func t g) q <;> simp [h, exOk]

/-- Spot application of `sandbox_get_interception_amended` to the concrete
sandbox container from `runScript`. -/
theorem sandbox_get_interception_amended_spot :
    handlerGet (sandboxFields SBValue.vnull) "window" = .error (getDeniedMsg "window")
  ∧ handlerGet (sandboxFields SBValue.vnull) "Math" = .ok (.proxied mathFields)
  ∧ sbRead (.proxied mathFields) "floor" = handlerGet mathFields "floor"
  ∧ handlerGet (sandboxFields SBValue.vnull) "String" = .ok (.func "String" []) :=
  ⟨sandbox_get_interception_amended.1 (sandboxFields SBValue.vnull) "window" rfl,
   sandbox_get_interception_amended.2.1 (sandboxFields SBValue.vnull) "Math" mathFields rfl,
   sandbox_get_interception_amended.2.2.1 (sandboxFields SBValue.vnull) mathFields "Math"
     (sandbox_get_interception_amended.2.1 (sandboxFields SBValue.vnull) "Math"
       mathFields rfl) "floor",
   sandbox_get_interception_amended.2.2.2.2.1 (sandboxFields SBValue.vnull) "String"
     "String" [] rfl⟩

/-- C4: a property write through the sandbox: anything but
`plugin.exports` raises the permission-denied error naming the target;
a write to `plugin.exports` succeeds and stores the value. -/
theorem sandbox_set_interception :
    (∀ (t : Bool) (p : String) (v : SBValue),
        ¬ (t = true ∧ p = "exports") → handlerSet t p v = .error (setDeniedMsg p))
  ∧ (∀ v : SBValue, handlerSet true "exports" v = .ok v) := by
  constructor
  · intro t p v h
    simp only [handlerSet, if_neg h]
  · intro v
    simp [handlerSet]

/-- Spot application of `sandbox_set_interception`. -/
theorem sandbox_set_interception_spot :
    handlerSet false "foo" (SBValue.prim "x") = .error (setDeniedMsg "foo")
  ∧ handlerSet true "plugin" (SBValue.prim "x") = .error (setDeniedMsg "plugin")
  ∧ handlerSet true "exports" (SBValue.prim "x") = .ok (SBValue.prim "x") :=
  ⟨sandbox_set_interception.1 false "foo" _ (by simp),
   sandbox_set_interception.1 true "plugin" _ (by simp),
   sandbox_set_interception.2 _⟩

/-! ## Claim theorems: schema validation -/

/-- C8: `_isBookStore` unconditionally throws, so no candidate whose TYPE
is the STORE variant (`BOOK_STORE = 1`) ever passes `_isPlugin`. -/
theorem bookstore_validation_always_fails :
    (∀ p : Candidate, checkBookStore p = .error "unknown")
  ∧ (∀ p : Candidate, p.TYPE = JSVal.num 1 → exOk (isPluginE p) = false) := by
  constructor
  · intro p
    rfl
  · intro p h
    have hd : exOk (checkDispatch p) = false := by
      simp [checkDispatch, h, jsAsNum, checkBookStore, exOk]
    simp only [isPluginE]
    apply exOk_bind_false
    apply exOk_bind_false
    apply exOk_bind_false
    apply exOk_bind_false
    apply exOk_bind_false
    apply exOk_bind_false
    apply exOk_bind_false
    apply exOk_bind_false
    exact hd

/-- A STORE-typed but otherwise valid candidate. -/
def storeCand : Candidate :=
  { goodCand with TYPE := .num 1 }

/-- Spot application of `bookstore_validation_always_fails`. -/
theorem bookstore_validation_always_fails_spot :
    exOk (isPluginE storeCand) = false ∧ checkBookStore storeCand = .error "unknown" :=
  ⟨bookstore_validation_always_fails.2 storeCand rfl,
   bookstore_validation_always_fails.1 storeCand⟩

/-- C5 counterexample: the ID regex `/[A-Za-z0-9_\-]/` is unanchored, so a
16-character ID containing `!` — a character outside the class — passes the
whole schema validation. -/
theorem id_charset_counterexample :
    badCharCand.ID = JSVal.str "abcdefgh1234567!"
  ∧ ("abcdefgh1234567!".data.contains '!') = true
  ∧ idCharOk '!' = false
  ∧ isPluginE badCharCand = .ok () :=
  ⟨rfl, by decide, by decide, rfl⟩

/-- C5 (amended): validation rejects an ID with no character from
`[A-Za-z0-9_-]` or with leading/trailing whitespace (untrimmed), rejects an
ID whose length is outside [16,32], and accepts boundary lengths 16 and 32;
an ID containing characters outside the class is not thereby rejected. -/
theorem id_validation_amended :
    (∀ (p : Candidate) (s : String), p.ID = .str s →
        idRegexTest s = false ∨ jsTrimEq s = false →
        isPluginE p = .error "The ID format is not standard")
  ∧ (∀ (p : Candidate) (s : String), p.ID = .str s →
        idRegexTest s = true → jsTrimEq s = true → jsLen s < 16 ∨ jsLen s > 32 →
        isPluginE p = .error ("Static property [ID] Length:" ++ toString (jsLen s)
          ++ ", ID range in length [16,32]"))
  ∧ isPluginE goodCand = .ok ()
  ∧ isPluginE good32Cand = .ok () := by
  refine ⟨?_, ?_, rfl, rfl⟩
  · intro p s hc h
    exact isPluginE_err_of_checkID p _ (checkID_format_err p s hc h)
  · intro p s hc h1 h2 h3
    exact isPluginE_err_of_checkID p _ (checkID_length_err p s hc h1 h2 h3)

/-- Spot application of `id_validation_amended`: an ID of only `!`s is
rejected as non-standard; a 14-character ID is rejected by length. -/
theorem id_validation_amended_spot :
    isPluginE { goodCand with ID := JSVal.str "!!!!!!!!!!!!!!!!" }
      = .error "The ID format is not standard"
  ∧ isPluginE { goodCand with ID := JSVal.str "abcdefgh123456" }
      = .error "Static property [ID] Length:14, ID range in length [16,32]" :=
  ⟨id_validation_amended.1 { goodCand with ID := JSVal.str "!!!!!!!!!!!!!!!!" }
     "!!!!!!!!!!!!!!!!" rfl (Or.inl (by decide)),
   id_validation_amended.2.1 { goodCand with ID := JSVal.str "abcdefgh123456" }
     "abcdefgh123456" rfl (by decide) (by decide) (Or.inl (by decide))⟩

/-! ## Import pipeline lemmas -/

/-- A failed `import` leaves the registry and the persisted records
untouched (only the store cache may have been populated). -/
theorem importFn_error_frame (env : JSEnv) (pOk : Bool) (fs : String → Option String)
    (pathOpt codeOpt : Option String) (options : Option ImportOptions)
    (st : ImportState) (e : String) (st1 : ImportState)
    (h : importFn env pOk fs pathOpt codeOpt options st = (.error e, st1)) :
    st1.pool = st.pool ∧ st1.db = st.db := by
  unfold importFn at h
  cases hr : resolveCode fs pathOpt codeOpt with
  | error e2 =>
    simp only [hr] at h
    cases h
    exact ⟨rfl, rfl⟩
  | ok jscode =>
    simp only [hr] at h
    cases hc : check env jscode options st.pool with
    | error e2 =>
      simp only [hc] at h
      cases h
      exact ⟨rfl, rfl⟩
    | ok pc =>
      simp only [hc] at h
      cases hk : env.construct pc.1 with
      | error e2 =>
        simp only [hk] at h
        cases h
        exact ⟨rfl, rfl⟩
      | ok u =>
        simp only [hk] at h
        by_cases hd : optProp options ImportOptions.debug = false ∧ pOk = false
        · rw [if_pos hd] at h
          cases h
          exact ⟨rfl, rfl⟩
        · rw [if_neg hd] at h
          have hfst := congrArg Prod.fst h
          simp at hfst

/-- With `force` truthy the duplicate-id guard is skipped, so `check` does
not depend on the registry contents. -/
theorem check_pool_irrelevant (env : JSEnv) (jscode : String)
    (options : Option ImportOptions) (pool pool' : List (String × PoolEntry))
    (hf : optProp options ImportOptions.force = true) :
    check env jscode options pool = check env jscode options pool' := by
  unfold check
  cases hm : (if doMinify options then staticPass env jscode else Except.ok jscode) with
  | error e => simp only [hm]
  | ok code =>
    simp only [hm]
    cases hr : env.run code with
    | error e => simp only [hr]
    | ok exp =>
      cases exp with
      | none => simp only [hr]
      | some plugin =>
        simp only [hr]
        cases hv : isPluginE plugin with
        | error e => simp only [hv]
        | ok u => simp [hv, hf]

/-- With `force` truthy the result (not the state) of `import` does not
depend on the starting state. -/
theorem importFn_fst_force (env : JSEnv) (pOk : Bool) (fs : String → Option String)
    (pathOpt codeOpt : Option String) (options : Option ImportOptions)
    (st st' : ImportState)
    (hf : optProp options ImportOptions.force = true) :
    (importFn env pOk fs pathOpt codeOpt options st).1
      = (importFn env pOk fs pathOpt codeOpt options st').1 := by
  unfold importFn
  cases hr : resolveCode fs pathOpt codeOpt with
  | error e => simp only [hr]
  | ok jscode =>
    simp only [hr]
    rw [check_pool_irrelevant env jscode options st.pool st'.pool hf]
    cases hc : check env jscode options st'.pool with
    | error e => simp only [hc]
    | ok pc =>
      simp only [hc]
      cases hk : env.construct pc.1 with
      | error e => simp only [hk]
      | ok u =>
        simp only [hk]
        by_cases hd : optProp options ImportOptions.debug = false ∧ pOk = false
        · rw [if_pos hd, if_pos hd]
        · rw [if_neg hd, if_neg hd]

/-! ## Claim theorems: import error handling -/

/-- C3: any pipeline failure (source resolution, static validation,
execution, schema validation, duplicate-id check, construction,
persistence) aborts the whole import with that stage's error and leaves the
registry and the persisted records unchanged for every id — no partial
registration. -/
theorem import_fails_closed (env : JSEnv) (pOk : Bool) (fs : String → Option String)
    (pathOpt codeOpt : Option String) (options : Option ImportOptions)
    (st : ImportState) :
    (∀ (e : String) (st1 : ImportState),
        importFn env pOk fs pathOpt codeOpt options st = (.error e, st1) →
        st1.pool = st.pool ∧ st1.db = st.db)
  ∧ (∀ e : String, resolveCode fs pathOpt codeOpt = .error e →
        importFn env pOk fs pathOpt codeOpt options st = (.error e, st))
  ∧ (∀ (jscode e : String), resolveCode fs pathOpt codeOpt = .ok jscode →
        check env jscode options st.pool = .error e →
        importFn env pOk fs pathOpt codeOpt options st = (.error e, st)) := by
  refine ⟨importFn_error_frame env pOk fs pathOpt codeOpt options st, ?_, ?_⟩
  · intro e hr
    simp [importFn, hr]
  · intro jscode e hr hc
    simp [importFn, hr, hc]

/-- Spot application of `import_fails_closed`: with no path and no code
the import aborts with the resolution error and an unchanged state. -/
theorem import_fails_closed_spot :
    importFn goodEnv true emptyFs none none none emptyState
      = (.error "Plugin jscode not found", emptyState)
  ∧ ([] : List (String × PoolEntry)) = emptyState.pool
  ∧ ([] : List DBRecord) = emptyState.db :=
  ⟨(import_fails_closed goodEnv true emptyFs none none none emptyState).2.1
      "Plugin jscode not found" rfl,
   ((import_fails_closed goodEnv true emptyFs none none none emptyState).1
      "Plugin jscode not found" emptyState
      ((import_fails_closed goodEnv true emptyFs none none none emptyState).2.1
        "Plugin jscode not found" rfl)).1,
   ((import_fails_closed goodEnv true emptyFs none none none emptyState).1
      "Plugin jscode not found" emptyState
      ((import_fails_closed goodEnv true emptyFs none none none emptyState).2.1
        "Plugin jscode not found" rfl)).2⟩

/-- C2 counterexample: the put of step 7 runs before `pluginsPool.set`, so
when the persistence write fails (and `debug` is off) the import returns an
error — no instance — and nothing is registered for the plugin's id, even
though every earlier stage succeeded. -/
theorem persist_failure_aborts_counterexample :
    exOk (importFn goodEnv false emptyFs none (some "x")
        (some { enable := some true }) emptyState).1 = false
  ∧ poolGet (importFn goodEnv false emptyFs none (some "x")
        (some { enable := some true }) emptyState).2.pool "abcdefgh12345678" = none :=
  ⟨rfl, rfl⟩

/-- C2 (amended): when the persistence collaborator's put fails and `debug`
is not set, the import does not complete the in-memory registration: the
call returns an error (no constructed instance is handed back) and the
registry is exactly as before. -/
theorem persist_failure_prevents_registration (env : JSEnv) (fs : String → Option String)
    (pathOpt codeOpt : Option String) (options : Option ImportOptions)
    (st : ImportState) (hd : optProp options ImportOptions.debug = false) :
    exOk (importFn env false fs pathOpt codeOpt options st).1 = false
  ∧ (importFn env false fs pathOpt codeOpt options st).2.pool = st.pool := by
  unfold importFn
  cases hr : resolveCode fs pathOpt codeOpt with
  | error e => simp [hr, exOk]
  | ok jscode =>
    simp only [hr]
    cases hc : check env jscode options st.pool with
    | error e => simp [hc, exOk]
    | ok pc =>
      simp only [hc]
      cases hk : env.construct pc.1 with
      | error e => simp [hk, exOk, storePhase]
      | ok u => simp [hk, hd, exOk, storePhase]

/-- Spot application of `persist_failure_prevents_registration`. -/
theorem persist_failure_prevents_registration_spot :
    exOk (importFn goodEnv false emptyFs none (some "y")
        (some { enable := some true, minify := some true }) emptyState).1 = false
  ∧ (importFn goodEnv false emptyFs none (some "y")
        (some { enable := some true, minify := some true }) emptyState).2.pool
      = emptyState.pool :=
  persist_failure_prevents_registration goodEnv emptyFs none (some "y")
    (some { enable := some true, minify := some true }) emptyState rfl

/-- C6 counterexample: a script whose syntax tree contains a module-import
construct is imported successfully — never rejected — when the caller
passes `minify: false` (exactly what `importPool` does), because the guard
`!options || options.minify` skips the static pass entirely. -/
theorem import_construct_not_rejected_counterexample :
    (findImportNode [importASTNode]).isSome = true
  ∧ importyEnv.parse "import x" = .ok [importASTNode]
  ∧ exOk (importFn importyEnv true emptyFs none (some "import x")
      (some { minify := some false }) emptyState).1 = true :=
  ⟨rfl, rfl, rfl⟩

/-- C6 (amended): whenever the static pass is active — `options` absent or
`options.minify` truthy — a script whose tree contains a module-import
construct is rejected with an error naming the offending line, before any
execution: the result is independent of the interpreter's `run` and the
state is unchanged. -/
theorem import_construct_rejected_when_active
    (parse : String → Except String (List ASTNode)) (minify : String → String)
    (run : String → Except String (Option Candidate))
    (construct : Candidate → Except String Unit)
    (pOk : Bool) (fs : String → Option String) (jscode : String)
    (options : Option ImportOptions) (st : ImportState)
    (nodes : List ASTNode) (n : ASTNode)
    (hm : doMinify options = true)
    (hp : parse jscode = .ok nodes)
    (hn : findImportNode nodes = some n) :
    importFn ⟨parse, minify, run, construct⟩ pOk fs none (some jscode) options st
      = (.error ("Cannot import modules, in the " ++ toString n.line ++ " line"), st) := by
  have hsp : staticPass ⟨parse, minify, run, construct⟩ jscode
      = .error ("Cannot import modules, in the " ++ toString n.line ++ " line") := by
    simp [staticPass, hp, hn]
  have hcheck : check ⟨parse, minify, run, construct⟩ jscode options st.pool
      = .error ("Cannot import modules, in the " ++ toString n.line ++ " line") := by
    unfold check
    rw [if_pos hm]
    simp only [hsp]
  simp [importFn, resolveCode, hcheck]

/-- Spot application of `import_construct_rejected_when_active`: with no
options the pass is on and the line-3 import node is reported. -/
theorem import_construct_rejected_when_active_spot :
    importFn importyEnv true emptyFs none (some "import x") none emptyState
      = (.error "Cannot import modules, in the 3 line", emptyState) :=
  import_construct_rejected_when_active (fun _ => .ok [importASTNode]) (fun s => s)
    (fun _ => .ok (some goodCand)) (fun _ => .ok ()) true emptyFs "import x" none
    emptyState [importASTNode] importASTNode rfl rfl rfl

/-! ## Registry invariant lemmas -/

theorem persistPhase_pool (o : Option ImportOptions) (pr : PluginProps) (c : String)
    (s : ImportState) : (persistPhase o pr c s).pool = s.pool := by
  unfold persistPhase
  split <;> rfl

theorem poolInv_filter (pool : List (String × PoolEntry)) (f : String × PoolEntry → Bool)
    (h : PoolInv pool) : PoolInv (pool.filter f) := by
  intro x hx
  exact h x (List.mem_filter.1 hx).1

theorem poolInv_poolSet (id : String) (e : PoolEntry) (pool : List (String × PoolEntry))
    (h : PoolInv pool) (h1 : e.enable = false → e.inst = none)
    (h2 : e.inst.isSome = true → e.enable = true) : PoolInv (poolSet id e pool) := by
  intro x hx
  rcases List.mem_cons.1 hx with hx | hx
  · subst hx
    exact ⟨h1, h2⟩
  · exact h x (List.mem_filter.1 hx).1

/-- A registered entry as built by `registerPhase` always satisfies the
enable/instance coupling. -/
theorem poolInv_registerPhase (options : Option ImportOptions) (props : PluginProps)
    (s : ImportState) (h : PoolInv s.pool) : PoolInv (registerPhase options props s).pool := by
  unfold registerPhase
  apply poolInv_poolSet _ _ _ h
  · intro he
    cases hb : optProp options ImportOptions.enable with
    | false => simp [hb]
    | true => simp [hb] at he
  · intro hi
    cases hb : optProp options ImportOptions.enable with
    | true => rfl
    | false => simp [hb] at hi

/-- `import` preserves the registry invariant. -/
theorem importFn_pool_inv (env : JSEnv) (pOk : Bool) (fs : String → Option String)
    (pathOpt codeOpt : Option String) (options : Option ImportOptions)
    (st : ImportState) (h : PoolInv st.pool) :
    PoolInv (importFn env pOk fs pathOpt codeOpt options st).2.pool := by
  unfold importFn
  cases hr : resolveCode fs pathOpt codeOpt with
  | error e => exact h
  | ok jscode =>
    simp only [hr]
    cases hc : check env jscode options st.pool with
    | error e => exact h
    | ok pc =>
      simp only [hc]
      cases hk : env.construct pc.1 with
      | error e => exact h
      | ok u =>
        simp only [hk]
        by_cases hd : optProp options ImportOptions.debug = false ∧ pOk = false
        · rw [if_pos hd]
          exact h
        · rw [if_neg hd]
          apply poolInv_registerPhase
          rw [persistPhase_pool]
          exact h

/-- `disable` preserves the registry invariant. -/
theorem disableFn_pool_inv (pOk : Bool) (id : String) (st : ImportState)
    (h : PoolInv st.pool) : PoolInv (disableFn pOk id st).2.pool := by
  unfold disableFn
  cases hdb : dbGet st.db id with
  | none => exact h
  | some rec =>
    cases hp : poolGet st.pool id with
    | none => exact h
    | some p =>
      cases pOk with
      | false => exact h
      | true =>
        simp only [if_pos rfl]
        apply poolInv_poolSet _ _ _ h
        · intro _
          rfl
        · intro habs
          simp at habs

/-- `enable` preserves the registry invariant. -/
theorem enableFn_pool_inv (env : JSEnv) (pOk : Bool) (fs : String → Option String)
    (id : String) (st : ImportState) (h : PoolInv st.pool) :
    PoolInv (enableFn env pOk fs id st).2.pool := by
  unfold enableFn
  cases hdb : dbGet st.db id with
  | none => exact h
  | some rec =>
    cases hp : poolGet st.pool id with
    | none => exact h
    | some p =>
      cases pOk with
      | false => exact h
      | true =>
        simp only [if_pos rfl]
        exact importFn_pool_inv env true fs none (some rec.jscode) (some enableOpts)
          { st with db := dbPut { rec with enable := true } st.db } h

/-! ## Claim theorems: registry invariant -/

/-- C9: every registry operation — import, enable, disable, delete —
preserves the invariant that a disabled entry has no instance and an
instance is present only for an enabled entry (an instance is only ever
installed under `options.enable` after a successful construction). -/
theorem registry_instance_invariant (env : JSEnv) (pOk : Bool)
    (fs : String → Option String) (pathOpt codeOpt : Option String)
    (options : Option ImportOptions) (id : String) (st : ImportState)
    (h : PoolInv st.pool) :
    PoolInv (importFn env pOk fs pathOpt codeOpt options st).2.pool
  ∧ PoolInv (disableFn pOk id st).2.pool
  ∧ PoolInv (enableFn env pOk fs id st).2.pool
  ∧ PoolInv (deleteFn id st).pool :=
  ⟨importFn_pool_inv env pOk fs pathOpt codeOpt options st h,
   disableFn_pool_inv pOk id st h,
   enableFn_pool_inv env pOk fs id st h,
   poolInv_filter st.pool _ h⟩

/-- Spot application of `registry_instance_invariant` starting from the
empty registry. -/
theorem registry_instance_invariant_spot :
    PoolInv (importFn goodEnv true emptyFs none (some "x")
        (some { enable := some true }) emptyState).2.pool
  ∧ PoolInv (disableFn true "abcdefgh12345678" emptyState).2.pool
  ∧ PoolInv (enableFn goodEnv true emptyFs "abcdefgh12345678" emptyState).2.pool
  ∧ PoolInv (deleteFn "abcdefgh12345678" emptyState).pool :=
  registry_instance_invariant goodEnv true emptyFs none (some "x")
    (some { enable := some true }) "abcdefgh12345678" emptyState
    (by intro x hx; cases hx)

/-- C10: under the registry invariant, `getPluginsByType` with a filter
whose `enable` field is `false` always returns the empty list: entries
surviving the enable-state filter are disabled, hence have no instance, and
the non-null-instance filter removes them all. -/
theorem disabled_filter_returns_empty (pool : List (String × PoolEntry)) (type : Int)
    (g : Option String) (h : PoolInv pool) :
    getPluginsByType pool type (some { enable := some false, group := g }) = [] := by
  unfold getPluginsByType
  rw [List.map_eq_nil_iff]
  rw [List.filter_eq_nil_iff]
  intro e he
  have h2 := (List.mem_filter.1 he).2
  have h1 : e ∈ pool.map Prod.snd := (List.mem_filter.1 (List.mem_filter.1 he).1).1
  obtain ⟨x, hx, hxe⟩ := List.mem_map.1 h1
  have henable : e.enable = false := by
    have : ((some { enable := some false, group := g } :
        Option PluginFilterM).bind PluginFilterM.enable).getD true = false := rfl
    rw [this] at h2
    simpa using h2
  have hnone : e.inst = none := by
    rw [← hxe] at henable ⊢
    exact (h x hx).1 henable
  simp [hnone]

/-! ## Bulk-load lemmas -/

/-- Error/ok projection of an `Except` result as an optional message. -/
def exErr {α : Type} : Except String α → Option String
  | .ok _ => none
  | .error e => some e

/-- The per-record import result of the bulk-load loop. With `force: true`
the duplicate-id guard is skipped, so the result is state-independent and
can be taken at the empty state. -/
def recImportRes (env : JSEnv) (pOk : Bool) (fs : String → Option String)
    (r : DBRecord) : Except String PluginProps :=
  (importFn env pOk fs none (some r.jscode) (some (poolOpts r.enable)) emptyState).1

/-- A record is well-keyed when a successful import of its code declares
exactly the record's id (how `import` writes records in the first place). -/
def resOkIdB : Except String PluginProps → String → Bool
  | .ok p, i => p.ID == i
  | .error _, _ => true

theorem poolStep_fst_eq (env : JSEnv) (pOk : Bool) (fs : String → Option String)
    (r : DBRecord) (st : ImportState) :
    (importFn env pOk fs none (some r.jscode) (some (poolOpts r.enable)) st).1
      = recImportRes env pOk fs r :=
  importFn_fst_force env pOk fs none (some r.jscode) (some (poolOpts r.enable))
    st emptyState rfl

theorem find?_filter_imp {α : Type} (p q : α → Bool) (l : List α)
    (h : ∀ a, p a = true → q a = true) : (l.filter q).find? p = l.find? p := by
  induction l with
  | nil => rfl
  | cons a t ih =>
    by_cases hq : q a = true
    · rw [List.filter_cons_of_pos hq]
      by_cases hp : p a = true
      · rw [List.find?_cons_of_pos _ hp, List.find?_cons_of_pos _ hp]
      · rw [List.find?_cons_of_neg _ hp, List.find?_cons_of_neg _ hp]
        exact ih
    · rw [List.filter_cons_of_neg (by simpa using hq)]
      rw [List.find?_cons_of_neg _ (fun hp => hq (h a hp))]
      exact ih

theorem dbGet_dbPut_ne (r : DBRecord) (db : List DBRecord) (x : String)
    (h : ¬ r.id = x) : dbGet (dbPut r db) x = dbGet db x := by
  unfold dbGet dbPut
  rw [List.find?_cons_of_neg _ (by simp [h])]
  apply find?_filter_imp
  intro a ha
  simp only [beq_iff_eq] at ha
  simp only [Bool.not_eq_true', beq_eq_false_iff_ne, ne_eq]
  intro har
  exact h (by rw [← har, ha])

theorem dbGet_dbRemove_self (i : String) (db : List DBRecord) :
    dbGet (dbRemove i db) i = none := by
  unfold dbGet dbRemove
  apply List.find?_eq_none.mpr
  intro a ha
  have := (List.mem_filter.1 ha).2
  simpa using this

theorem dbGet_dbRemove_none (i : String) (db : List DBRecord) (x : String)
    (h : dbGet db x = none) : dbGet (dbRemove i db) x = none := by
  unfold dbGet at h
  unfold dbGet dbRemove
  apply List.find?_eq_none.mpr
  intro a ha
  exact List.find?_eq_none.mp h a (List.mem_filter.1 ha).1

/-- A successful bulk-load-style import (options `poolOpts`) upserts exactly
one persisted record, keyed by the plugin's declared ID. -/
theorem importFn_ok_db (env : JSEnv) (pOk : Bool) (fs : String → Option String)
    (codeStr : String) (en : Bool) (st : ImportState) (p : PluginProps)
    (st1 : ImportState)
    (h : importFn env pOk fs none (some codeStr) (some (poolOpts en)) st = (.ok p, st1)) :
    ∃ c, st1.db = dbPut { id := p.ID, jscode := c, enable := en } st.db := by
  unfold importFn at h
  rw [show resolveCode fs none (some codeStr) = .ok codeStr from rfl] at h
  cases hc : check env codeStr (some (poolOpts en)) st.pool with
  | error e =>
    simp only [hc] at h
    exact absurd (congrArg Prod.fst h) (by simp)
  | ok pc =>
    simp only [hc] at h
    cases hk : env.construct pc.1 with
    | error e =>
      simp only [hk] at h
      exact absurd (congrArg Prod.fst h) (by simp)
    | ok u =>
      simp only [hk] at h
      cases pOk with
      | false =>
        rw [if_pos ⟨rfl, rfl⟩] at h
        exact absurd (congrArg Prod.fst h) (by simp)
      | true =>
        rw [if_neg (by simp)] at h
        have hp : extractProps pc.1 = p := by
          have hfst := congrArg Prod.fst h
          simpa using hfst
        have hst : st1 = registerPhase (some (poolOpts en)) (extractProps pc.1)
            (persistPhase (some (poolOpts en)) (extractProps pc.1) pc.2
              (storePhase (extractProps pc.1).ID st)) := by
          have hsnd := congrArg Prod.snd h
          exact hsnd.symm
        refine ⟨pc.2, ?_⟩
        rw [hst]
        show (persistPhase (some (poolOpts en)) (extractProps pc.1) pc.2
          (storePhase (extractProps pc.1).ID st)).db
          = dbPut { id := p.ID, jscode := pc.2, enable := en } st.db
        unfold persistPhase
        rw [if_neg (by simp [optProp, poolOpts])]
        rw [hp]
        rfl

theorem poolStep_stat_id (env : JSEnv) (pOk : Bool) (fs : String → Option String)
    (r : DBRecord) (st : ImportState) : (poolStep env pOk fs r st).1.id = r.id := by
  unfold poolStep
  cases h : importFn env pOk fs none (some r.jscode) (some (poolOpts r.enable)) st with
  | mk res st1 =>
    cases res <;> rfl

/-- The recorded outcome of a bulk-load step is the per-record import
result: `none` on success, the import's error message on failure. -/
theorem poolStep_stat_error (env : JSEnv) (pOk : Bool) (fs : String → Option String)
    (r : DBRecord) (st : ImportState) :
    (poolStep env pOk fs r st).1.error = exErr (recImportRes env pOk fs r) := by
  rw [← poolStep_fst_eq env pOk fs r st]
  unfold poolStep
  cases h : importFn env pOk fs none (some r.jscode) (some (poolOpts r.enable)) st with
  | mk res st1 =>
    cases res <;> rfl

/-- After a failed bulk-load step the record's persisted entry is removed
and nothing else in the persistence changed. -/
theorem poolStep_db_err (env : JSEnv) (pOk : Bool) (fs : String → Option String)
    (r : DBRecord) (st : ImportState) (e : String)
    (hrec : recImportRes env pOk fs r = .error e) :
    (poolStep env pOk fs r st).2.db = dbRemove r.id st.db := by
  have hfst := poolStep_fst_eq env pOk fs r st
  unfold poolStep
  cases h : importFn env pOk fs none (some r.jscode) (some (poolOpts r.enable)) st with
  | mk res st1 =>
    rw [h] at hfst
    rw [hrec] at hfst
    have hres : res = Except.error e := hfst
    subst hres
    have hframe := importFn_error_frame env pOk fs none (some r.jscode)
      (some (poolOpts r.enable)) st e st1 h
    show dbRemove r.id st1.db = dbRemove r.id st.db
    rw [hframe.2]

/-- After a successful bulk-load step the persistence holds an upserted
record keyed by the plugin's declared ID. -/
theorem poolStep_db_ok (env : JSEnv) (pOk : Bool) (fs : String → Option String)
    (r : DBRecord) (st : ImportState) (p : PluginProps)
    (hrec : recImportRes env pOk fs r = .ok p) :
    ∃ c, (poolStep env pOk fs r st).2.db
      = dbPut { id := p.ID, jscode := c, enable := r.enable } st.db := by
  have hfst := poolStep_fst_eq env pOk fs r st
  unfold poolStep
  cases h : importFn env pOk fs none (some r.jscode) (some (poolOpts r.enable)) st with
  | mk res st1 =>
    rw [h] at hfst
    rw [hrec] at hfst
    have hres : res = Except.ok p := hfst
    subst hres
    exact importFn_ok_db env pOk fs r.jscode r.enable st p st1 h

theorem runPool_ids (env : JSEnv) (pOk : Bool) (fs : String → Option String)
    (records : List DBRecord) (st : ImportState) :
    (runPool env pOk fs records st).1.map LoadStat.id = records.map DBRecord.id := by
  induction records generalizing st with
  | nil => rfl
  | cons r rs ih =>
    simp only [runPool, List.map_cons]
    rw [poolStep_stat_id, ih]

theorem runPool_zip_spec (env : JSEnv) (pOk : Bool) (fs : String → Option String)
    (records : List DBRecord) (st : ImportState) :
    ∀ pr ∈ (runPool env pOk fs records st).1.zip records,
      pr.1.id = pr.2.id ∧ pr.1.error = exErr (recImportRes env pOk fs pr.2) := by
  induction records generalizing st with
  | nil =>
    intro pr hpr
    simp [runPool] at hpr
  | cons r rs ih =>
    intro pr hpr
    simp only [runPool, List.zip_cons_cons] at hpr
    rcases List.mem_cons.1 hpr with h | h
    · subst h
      exact ⟨poolStep_stat_id env pOk fs r st, poolStep_stat_error env pOk fs r st⟩
    · exact ih _ pr h

theorem runPool_db_none (env : JSEnv) (pOk : Bool) (fs : String → Option String)
    (records : List DBRecord) (st : ImportState) (x : String) :
    dbGet st.db x = none →
    (∀ r ∈ records, r.id ≠ x) →
    (∀ r ∈ records, resOkIdB (recImportRes env pOk fs r) r.id = true) →
    dbGet (runPool env pOk fs records st).2.db x = none := by
  induction records generalizing st with
  | nil =>
    intro hx _ _
    exact hx
  | cons r rs ih =>
    intro hx hids hwf
    simp only [runPool]
    apply ih
    · cases hres : recImportRes env pOk fs r with
      | error e =>
        rw [poolStep_db_err env pOk fs r st e hres]
        exact dbGet_dbRemove_none r.id st.db x hx
      | ok p =>
        obtain ⟨c, hdb⟩ := poolStep_db_ok env pOk fs r st p hres
        rw [hdb]
        have hpid : p.ID = r.id := by
          have hwfr := hwf r (List.mem_cons_self r rs)
          rw [hres] at hwfr
          simpa [resOkIdB] using hwfr
        rw [dbGet_dbPut_ne _ _ _ (show ¬ p.ID = x from hpid ▸ hids r (List.mem_cons_self r rs))]
        exact hx
    · intro r' hr'
      exact hids r' (List.mem_cons_of_mem r hr')
    · intro r' hr'
      exact hwf r' (List.mem_cons_of_mem r hr')

theorem runPool_quarantine (env : JSEnv) (pOk : Bool) (fs : String → Option String)
    (records : List DBRecord) (st : ImportState) :
    (records.map DBRecord.id).Nodup →
    (∀ r ∈ records, resOkIdB (recImportRes env pOk fs r) r.id = true) →
    ∀ s ∈ (runPool env pOk fs records st).1, s.error.isSome = true →
      dbGet (runPool env pOk fs records st).2.db s.id = none := by
  induction records generalizing st with
  | nil =>
    intro _ _ s hs
    simp [runPool] at hs
  | cons r rs ih =>
    intro hnd hwf s hs herr
    simp only [runPool] at hs ⊢
    rcases List.mem_cons.1 hs with h | h
    · subst h
      rw [poolStep_stat_id]
      rw [poolStep_stat_error] at herr
      cases hres : recImportRes env pOk fs r with
      | ok p =>
        rw [hres] at herr
        simp [exErr] at herr
      | error e =>
        apply runPool_db_none
        · rw [poolStep_db_err env pOk fs r st e hres]
          exact dbGet_dbRemove_self r.id st.db
        · intro r' hr' heq
          exact (List.nodup_cons.1 hnd).1 (heq ▸ List.mem_map_of_mem DBRecord.id hr')
        · intro r' hr'
          exact hwf r' (List.mem_cons_of_mem r hr')
    · exact ih _ (List.nodup_cons.1 hnd).2
        (fun r' hr' => hwf r' (List.mem_cons_of_mem r hr')) s h herr

/-! ## Claim theorems: bulk load -/

/-- C7: bulk-loading persisted records with distinct, well-keyed ids (a
record's code, when it imports successfully, declares that record's id):
every record yields exactly one outcome in order — success `none` exactly
when its import succeeds, else the failure message — so no failure ever
aborts a sibling; and every record whose outcome is a failure has its
persisted entry removed afterwards (quarantine). -/
theorem bulk_load_failure_isolated (env : JSEnv) (pOk : Bool)
    (fs : String → Option String) (records : List DBRecord) (st : ImportState)
    (hnd : (records.map DBRecord.id).Nodup)
    (hwf : ∀ r ∈ records, resOkIdB (recImportRes env pOk fs r) r.id = true) :
    ((runPool env pOk fs records st).1.map LoadStat.id = records.map DBRecord.id)
  ∧ (∀ pr ∈ (runPool env pOk fs records st).1.zip records,
        pr.1.id = pr.2.id ∧ pr.1.error = exErr (recImportRes env pOk fs pr.2))
  ∧ (∀ s ∈ (runPool env pOk fs records st).1, s.error.isSome = true →
        dbGet (runPool env pOk fs records st).2.db s.id = none) :=
  ⟨runPool_ids env pOk fs records st,
   runPool_zip_spec env pOk fs records st,
   runPool_quarantine env pOk fs records st hnd hwf⟩

/-- A valid persisted record and a malformed one (its code exports a
candidate with an empty GROUP). -/
def goodRec : DBRecord := { id := "abcdefgh12345678", jscode := "good", enable := true }

def badRec : DBRecord := { id := "bbbbbbbb12345678", jscode := "bad", enable := true }

def mixedState : ImportState := { pool := [], db := [goodRec, badRec], storeCache := [] }

/-- Spot application of `bulk_load_failure_isolated` to a mixed record set:
both records get an outcome, and the malformed record is quarantined. -/
theorem bulk_load_failure_isolated_spot :
    (runPool mixedEnv true emptyFs [goodRec, badRec] mixedState).1.map LoadStat.id
      = [goodRec, badRec].map DBRecord.id
  ∧ dbGet (runPool mixedEnv true emptyFs [goodRec, badRec] mixedState).2.db
      "bbbbbbbb12345678" = none :=
  ⟨(bulk_load_failure_isolated mixedEnv true emptyFs [goodRec, badRec] mixedState
      (by decide) (by decide)).1,
   (bulk_load_failure_isolated mixedEnv true emptyFs [goodRec, badRec] mixedState
      (by decide) (by decide)).2.2
     ⟨"bbbbbbbb12345678", some "Static property [GROUP] Length:0, GROUP range in length [2,15]"⟩
     (by decide) rfl⟩

/-- Descriptor used by the registry fixtures. -/
def demoProps : PluginProps :=
  { ID := "abcdefgh12345678", TYPE := 0, GROUP := "news", NAME := "Demo",
    VERSION := "1.0", VERSION_CODE := 1, PLUGIN_FILE_URL := "",
    BASE_URL := "http://example.com" }

/-- Spot application of `disabled_filter_returns_empty` to a registry with
one disabled entry. -/
theorem disabled_filter_returns_empty_spot :
    getPluginsByType [("abcdefgh12345678",
        { enable := false, props := demoProps, inst := none })] 0
      (some { enable := some false, group := none }) = [] :=
  disabled_filter_returns_empty
    [("abcdefgh12345678", { enable := false, props := demoProps, inst := none })] 0 none
    (by
      intro x hx
      rw [List.mem_singleton] at hx
      subst hx
      exact ⟨fun _ => rfl, fun habs => by simp at habs⟩)
